import Mathlib

/-!
Verification of the RFDK integration-test Remote Test Execution Harness.

The development shallowly embeds the two source modules:

* `integ/components/deadline/deadline_04_workerFleetHttps/test/deadline_04_workerFleetHttps.test.ts`
  — stack-output discovery (regex key classification), the per-suite setup /
  assertion / teardown command dispatches.
* `integ/lib/testing-tier.ts` — the bastion boot-time user-data command
  pipeline, render-queue endpoint resolution, and certificate configuration.

JavaScript strings are embedded as `String`, JS regular-expression scans over
keys as explicit `List Char` scanners, possibly-`undefined` JS variables as
`Option String`, and the mutated accumulator arrays as explicit state records.
-/

namespace RfdkInteg

/-! ## Regex scanning primitives

The discovery regexes in the test file are `/bastionId/`,
`/renderQueueEndpointWFS(\d)/` and `/CertSecretARNWFS(\d)/` — unanchored, so
`test` is a substring search and `exec` captures the single digit at the first
position where the literal followed by one digit occurs. -/

/-- If `lit` is an initial segment of `s`, return the remainder of `s`. -/
def leadMatch : List Char → List Char → Option (List Char)
  | [], s => some s
  | _ :: _, [] => none
  | p :: ps, c :: cs => if p = c then leadMatch ps cs else none

/-- First match of the pattern `lit(\d)`, scanning left to right: at each
position, the literal must occur followed by one decimal digit, which is the
captured group. Models `exec` of the unanchored JS regexes. -/
def scanLitDigit (lit : List Char) : List Char → Option Char
  | [] => none
  | c :: cs =>
    match leadMatch lit (c :: cs) with
    | some (d :: _) => if d.isDigit then some d else scanLitDigit lit cs
    | _ => scanLitDigit lit cs

/-- Substring occurrence test; models `test` of a literal (capture-free) JS
regex such as `/bastionId/`. -/
def hasSub (lit : List Char) : List Char → Bool
  | [] => (leadMatch lit []).isSome
  | c :: cs => (leadMatch lit (c :: cs)).isSome || hasSub lit cs

/-- Numeric value of a captured digit character; models the JS unary `+` on
the single-character capture group. -/
def digitVal (c : Char) : Nat := c.toNat - Char.toNat '0'

/-- Literal of `bastionRegex`. -/
def bastionLit : List Char := "bastionId".toList

/-- Literal part of `rqRegex`. -/
def rqLit : List Char := "renderQueueEndpointWFS".toList

/-- Literal part of `certRegex`. -/
def certLit : List Char := "CertSecretARNWFS".toList

/-! ## Output discovery

The `beforeAll` of the test file walks the stack outputs and classifies every
key with a `switch(true)` over the three regexes, in that order; the first
matching case wins and unmatched keys hit the `default` branch and are
dropped. -/

/-- State built by the discovery loop: the `bastionId` variable and the two
sparse arrays `renderQueueEndpoints` / `secretARNs` indexed by the captured
suite digit. -/
structure Discovery where
  bastionId : Option String
  renderQueueEndpoints : Nat → Option String
  secretARNs : Nat → Option String

/-- Discovery state before any output is processed: every variable and array
slot is `undefined`. -/
def emptyDiscovery : Discovery :=
  { bastionId := none, renderQueueEndpoints := fun _ => none, secretARNs := fun _ => none }

/-- One iteration of the `stackOutput.forEach` classification `switch`. -/
def processOutput (st : Discovery) (kv : String × String) : Discovery :=
  if hasSub bastionLit kv.1.toList then
    { st with bastionId := some kv.2 }
  else
    match scanLitDigit rqLit kv.1.toList with
    | some d =>
      { st with renderQueueEndpoints :=
          fun i => if i = digitVal d then some kv.2 else st.renderQueueEndpoints i }
    | none =>
      match scanLitDigit certLit kv.1.toList with
      | some d =>
        { st with secretARNs :=
            fun i => if i = digitVal d then some kv.2 else st.secretARNs i }
      | none => st

/-- Full discovery pass over the stack outputs, in order. -/
def discover (outputs : List (String × String)) : Discovery :=
  outputs.foldl processOutput emptyDiscovery

/-- The endpoint key the testing tier emits for single-digit suite `i`
(`renderQueueEndpoint` + suite code + digit). -/
def rqKey (i : Nat) : String := "renderQueueEndpointWFS".push (Nat.digitChar i)

/-- The certificate-secret key for single-digit suite `i`. -/
def certKey (i : Nat) : String := "CertSecretARNWFS".push (Nat.digitChar i)

/-- First value stored under key `k` in a raw output mapping. -/
def lookupKey (k : String) : List (String × String) → Option String
  | [] => none
  | kv :: rest => if kv.1 = k then some kv.2 else lookupKey k rest

/-- A raw output key recognized by the harness: the bare host-identifier key,
or a suite-indexed endpoint / secret key with a single-digit index. -/
def GoodKey (k : String) : Prop :=
  k = "bastionId" ∨ ∃ i, i < 10 ∧ (k = rqKey i ∨ k = certKey i)

instance : DecidablePred GoodKey := fun k => by
  unfold GoodKey; infer_instance

/-! ## Remote command dispatches (Suite Driver)

Each SSM call in the test file is a parameter object with a document name, a
comment, the instance-id list and a shell command list. -/

/-- String coercion of a possibly-`undefined` JS value, as it appears inside a
template literal or string concatenation. -/
def jsStr : Option String → String
  | some s => s
  | none => "undefined"

/-- JS truthiness of a possibly-`undefined` string (`if(secretARNs[id])`):
`undefined` and the empty string are falsy. -/
def jsTruthy : Option String → Bool
  | some s => !(s == "")
  | none => false

/-- One dispatched SSM command run request. -/
structure Dispatch where
  documentName : String
  comment : String
  instanceIds : List String
  commands : List String

/-- The privileged-shell preamble every dispatched command list starts with. -/
def sudoPreamble : List String :=
  ["sudo -i", "su - ec2-user >/dev/null", "cd ~ec2-user"]

/-- The fetch-cert invocation built from the region and the discovered secret
ARN in the suite's `beforeAll`. -/
def fetchCertCommand (region arn : String) : String :=
  "./utilScripts/fetch-cert.sh '" ++ region ++ "' '" ++ arn ++ "'"

/-- The setup dispatch that fetches the suite's auth certificate. -/
def fetchCertDispatch (bastion region arn : String) : Dispatch :=
  { documentName := "AWS-RunShellScript"
    comment := "Execute Test Script fetch-cert.sh"
    instanceIds := [bastion]
    commands := sudoPreamble ++ [fetchCertCommand region arn] }

/-- The setup dispatch that points the Deadline client at the suite's resolved
render-queue endpoint. -/
def configureDeadlineDispatch (bastion endpoint : String) : Dispatch :=
  { documentName := "AWS-RunShellScript"
    comment := "Execute Test Script configure-deadline.sh"
    instanceIds := [bastion]
    commands := sudoPreamble ++ ["./utilScripts/configure-deadline.sh '" ++ endpoint ++ "'"] }

/-- The teardown dispatch (`afterAll`) that removes the fetched certificate. -/
def cleanupCertDispatch (bastion : String) : Dispatch :=
  { documentName := "AWS-RunShellScript"
    comment := "Execute Test Script cleanup-cert.sh"
    instanceIds := [bastion]
    commands := sudoPreamble ++ ["./utilScripts/cleanup-cert.sh"] }

/-! ## Assertions of the WFS suite -/

/-- How a test matches the collected stdout: `toMatch` with a literal pattern
(an unanchored substring test), or `expect(+output).toBe(n)` (numeric
coercion then equality). -/
inductive Matcher where
  | substr : String → Matcher
  | numEq : Nat → Matcher

/-- JS numeric coercion of the trimmed stdout, restricted to the unsigned
decimal outputs these tests produce: whitespace-only coerces to 0, a digit
string to its value, anything else to NaN (`none`). -/
def jsNat? (s : String) : Option Nat :=
  let t := s.trim.toList
  if t.all Char.isDigit then
    some (t.foldl (fun acc c => acc * 10 + digitVal c) 0)
  else
    none

/-- Evaluate a matcher against the raw stdout of a command run. -/
def evalMatcher : Matcher → String → Bool
  | Matcher.substr pat, out => hasSub pat.toList out.toList
  | Matcher.numEq n, out => jsNat? out == some n

/-- One `test` block: its title, the SSM comment, the test script invocation
it dispatches, and the matcher applied to the returned output. -/
structure AssertionSpec where
  testId : String
  comment : String
  script : String
  matcher : Matcher

/-- The four assertions of the WorkerFleetHttps suite with index `id`: the two
plain `test` blocks and the two parameterized `test.each` rows
(`[3,'group','-group testgroup']`, `[4,'pool','-pool testpool']`). -/
def wfsAssertionSpecs (id : Nat) : List AssertionSpec :=
  [ { testId := "WFS-" ++ toString id ++ "-1: Workers can be attached to the Render Queue"
      comment := "Execute Test Script WFS-report-workers.sh"
      script := "./testScripts/WFS-report-workers.sh"
      matcher := Matcher.substr "ip-" },
    { testId := "WFS-" ++ toString id ++ "-2: Workers can be added to groups, pools and regions"
      comment := "Execute Test Script WFS-report-worker-sets.sh"
      script := "./testScripts/WFS-report-worker-sets.sh"
      matcher := Matcher.substr "testpool\ntestgroup\ntestregion" },
    { testId := "WFS-" ++ toString id ++ "-3: Workers can be assigned jobs submitted to a group"
      comment := "Execute Test Script WFS-submit-jobs-to-sets.sh for group"
      script := "./testScripts/WFS-submit-jobs-to-sets.sh \"group\" \"-group testgroup\""
      matcher := Matcher.numEq 1 },
    { testId := "WFS-" ++ toString id ++ "-4: Workers can be assigned jobs submitted to a pool"
      comment := "Execute Test Script WFS-submit-jobs-to-sets.sh for pool"
      script := "./testScripts/WFS-submit-jobs-to-sets.sh \"pool\" \"-pool testpool\""
      matcher := Matcher.numEq 1 } ]

/-- The dispatch a `test` block issues for its assertion. -/
def assertionDispatch (bastion : String) (a : AssertionSpec) : Dispatch :=
  { documentName := "AWS-RunShellScript"
    comment := a.comment
    instanceIds := [bastion]
    commands := sudoPreamble ++ [a.script] }

/-- Per-check outcome record of the Suite Driver. -/
structure AssertionResult where
  suiteIndex : Nat
  testId : String
  matched : Bool
  rawOutput : String

/-- Modelled from the spec: the test-runner execution of the `Running` phase
is not under src/ (only the `test` blocks are). Per the spec, assertions are
independent: each one dispatches its own command run, awaits it, and records
its own `AssertionResult`; a failed match never prevents a later assertion
from being dispatched. `outs k` is the stdout the substrate returns for the
`k`-th assertion's command run. -/
def runningPhase (bastion : String) (id : Nat) (outs : Nat → String) :
    List Dispatch × List AssertionResult :=
  ((wfsAssertionSpecs id).enum).foldl
    (fun acc ka =>
      (acc.1 ++ [assertionDispatch bastion ka.2],
       acc.2 ++ [{ suiteIndex := id
                   testId := ka.2.testId
                   matched := evalMatcher ka.2.matcher (outs ka.1)
                   rawOutput := outs ka.1 }]))
    ([], [])

/-! ## Suite sequencing -/

/-- Terminal and non-terminal states of a `CommandRun` (spec data model). -/
inductive CommandState where
  | Pending
  | Success
  | Failed
  | TimedOut
deriving DecidableEq

/-- Name of the testing stack the suite queries, from the integ stack tag. -/
def testingStackName (tag : String) : String :=
  "RFDKInteg-WFS-TestingTier" ++ tag

/-- The suite's `beforeAll` setup step: when a truthy secret ARN was
discovered for the suite, it builds the fetch-cert dispatch; otherwise it
throws (`Did not find a secrect ARN for ...` — spelling as in the source). -/
def fetchCertStep (st : Discovery) (tag region : String) (id : Nat) :
    Except String Dispatch :=
  if jsTruthy (st.secretARNs id) then
    Except.ok (fetchCertDispatch (jsStr st.bastionId) region (jsStr (st.secretARNs id)))
  else
    Except.error ("Did not find a secrect ARN for " ++ testingStackName tag)

/-- Modelled from the spec: the hook sequencing of the test runner and the
`awaitSsmCommand` poller are not under src/ (only the hook bodies are). Per
the spec's Suite Driver state machine, setup dispatches are issued in order
and each must reach terminal `Success` before the next step; a failed or
timed-out setup issues no further setup and no assertion dispatch; the
teardown dispatch is always issued on every exit path. `fetchResult` /
`configResult` are the terminal states the poller reports for the two setup
command runs. -/
def suiteDispatches (st : Discovery) (tag region : String) (id : Nat)
    (fetchResult configResult : CommandState) : List Dispatch :=
  (match fetchCertStep st tag region id with
   | Except.error _ => []
   | Except.ok d =>
     d :: (if fetchResult = CommandState.Success then
             configureDeadlineDispatch (jsStr st.bastionId) (jsStr (st.renderQueueEndpoints id)) ::
               (if configResult = CommandState.Success then
                  (wfsAssertionSpecs id).map (assertionDispatch (jsStr st.bastionId))
                else [])
           else []))
  ++ [cleanupCertDispatch (jsStr st.bastionId)]

/-- The end-to-end scenario's raw stack outputs. -/
def e2eOutputs : List (String × String) :=
  [("bastionId", "i-1"),
   ("renderQueueEndpointWFS1", "rq1.local:4433"),
   ("CertSecretARNWFS1", "arn:secret:1")]

/-- A raw output mapping with a well-formed multi-digit suite-indexed key. -/
def multiDigitOutputs : List (String × String) :=
  [("bastionId", "i-1"), ("renderQueueEndpointWFS12", "ep12")]

/-! ## Boot Script Pipeline Builder (`configureBastionUserData`)

The source pushes commands onto a `userDataCommands` array; separately, every
`addS3DownloadCommand` call appends its download commands directly to the
instance user data at the moment of the call — before the array is flushed by
`addCommands` — and `addSignalOnExitCommand` is registered last. The model
assembles the user-data command list in exactly that mutation order. -/

/-- Boot configuration (`UserDataConfigProps`). -/
structure UserDataConfigProps where
  installDeadlineClient : Bool
  fetchDocdbCert : Bool
  testingScriptPath : String

/-- Modelled from the spec: the content-addressed asset locators (the S3
bucket produced by the packaging collaborator) are resolved outside src/; a
symbolic bucket name stands for the resolved location. -/
def assetBucket : String := "cdk-assets"

/-- Symbolic content-addressed key of the generic setup-scripts package. -/
def setupScriptsKey : String := "SetupScripts.zip"

/-- Symbolic content-addressed key of the versioned Deadline client
installer (`DeadlineClient-<version>-linux-x64-installer.run`). -/
def clientInstallerKey : String := "ClientInstaller.run"

/-- Symbolic content-addressed key of the shared utility-scripts package. -/
def utilScriptsKey : String := "UtilScripts.zip"

/-- Symbolic content-addressed key of the per-suite testing-scripts package
(its content is selected by `testingScriptPath`; the key itself is a content
hash resolved outside src/). -/
def testingScriptsKey : String := "TestingScripts.zip"

/-- Local path an S3 download is written to (`/tmp/<bucketKey>`), the value
`addS3DownloadCommand` returns. -/
def localPath (key : String) : String := "/tmp/" ++ key

/-- Modelled from the spec: the generic download-and-unpack shell invocations
emitted for a packaged asset by the external `UserData.addS3DownloadCommand`
(make the target directory, copy the object from S3). -/
def s3DownloadCommands (key : String) : List String :=
  ["mkdir -p $(dirname '" ++ localPath key ++ "')",
   "aws s3 cp 's3://" ++ assetBucket ++ "/" ++ key ++ "' '" ++ localPath key ++ "'"]

/-- The fixed well-known CA-bundle download pushed when `fetchDocdbCert`. -/
def docdbCaBundleDownloadCommand : String :=
  "wget https://s3.amazonaws.com/rds-downloads/rds-combined-ca-bundle.pem"

/-- Modelled from the spec: the completion signal registered by the external
`UserData.addSignalOnExitCommand` — the one-shot success notification the host
sends back to the provisioning phase at the end of the boot script. -/
def signalOnExitCommand : String :=
  "cfn-signal --exit-code $? (signal on exit)"

/-- The `userDataCommands` array as pushed, stage by stage, by
`configureBastionUserData`. `testingScriptPath` selects only the content of
the testing-scripts asset, never a command, so the array depends on the two
booleans alone. -/
def userDataCommands (installDeadlineClient fetchDocdbCert : Bool) : List String :=
  ["set -xeou pipefail", "TMPDIR=$(mktemp -d)", "cd \"${TMPDIR}\""]
  ++ ["unzip " ++ localPath setupScriptsKey, "chmod +x *.sh", "./install_jq.sh"]
  ++ (if installDeadlineClient then
        ["cp " ++ localPath clientInstallerKey ++ " ./deadline-client-installer.run",
         "chmod +x *.run",
         "./install_deadline_client.sh",
         "rm -f " ++ localPath clientInstallerKey]
      else [])
  ++ ["rm -f " ++ localPath setupScriptsKey]
  ++ ["cd ~ec2-user", "mkdir -p utilScripts", "cd utilScripts",
      "unzip " ++ localPath utilScriptsKey, "chmod +x *.sh",
      "rm -f " ++ localPath utilScriptsKey]
  ++ ["cd ~ec2-user", "mkdir -p testScripts", "cd testScripts",
      "unzip " ++ localPath testingScriptsKey, "chmod +x *.sh",
      "rm -f " ++ localPath testingScriptsKey]
  ++ (if fetchDocdbCert then
        ["cd ~ec2-user", "mkdir -p testScripts", "cd testScripts",
         docdbCaBundleDownloadCommand]
      else [])
  ++ ["cd ~ec2-user", "chown ec2-user.ec2-user -R *", "rm -rf \"${TMPDIR}\""]

/-- The complete user-data command sequence of the test bastion, in the order
the source appends it: each asset's download commands at its
`addS3DownloadCommand` call site (the client installer's only when
`installDeadlineClient`), then the flushed `userDataCommands` array, then the
signal-on-exit registration. -/
def bastionBootCommands (installDeadlineClient fetchDocdbCert : Bool) : List String :=
  s3DownloadCommands setupScriptsKey
  ++ (if installDeadlineClient then s3DownloadCommands clientInstallerKey else [])
  ++ s3DownloadCommands utilScriptsKey
  ++ s3DownloadCommands testingScriptsKey
  ++ userDataCommands installDeadlineClient fetchDocdbCert
  ++ [signalOnExitCommand]

/-- ISO-8601 rendering of `Duration.minutes(n)`. -/
def durationMinutesISO (n : Nat) : String := "PT" ++ toString n ++ "M"

/-- The CloudFormation creation-policy resource signal set on the bastion. -/
structure ResourceSignalPolicy where
  timeout : String
  count : Nat

/-- Result of `configureBastionUserData`: the assembled boot command sequence
and the resource-signal wait policy it configures. -/
structure BastionSetup where
  commands : List String
  resourceSignal : ResourceSignalPolicy

/-- `configureBastionUserData`: sets the creation policy to expect one signal
within five minutes and assembles the boot command sequence. -/
def configureBastionUserData (props : UserDataConfigProps) : BastionSetup :=
  { commands := bastionBootCommands props.installDeadlineClient props.fetchDocdbCert
    resourceSignal := { timeout := durationMinutesISO 5, count := 1 } }

/-! ## Render-queue endpoint configuration (`configureRenderQueue`) -/

/-- What `configureRenderQueue` computes for the suite's endpoint output. -/
structure RenderQueueOutput where
  address : Option String
  renderQueueEndpoint : String

/-- The address-selection `switch` of `configureRenderQueue` and the endpoint
output value `${address}:${port}` built from it: the endpoint hostname for
port `8080`, `renderqueue.` + the render queue's stack name + `.local` for
port `4433`, and no assignment at all (the JS variable stays `undefined`,
with no error) for every other port. -/
def configureRenderQueue (stackName hostname port : String) : RenderQueueOutput :=
  let zoneName := stackName ++ ".local"
  let address : Option String :=
    match port with
    | "8080" => some hostname
    | "4433" => some ("renderqueue." ++ zoneName)
    | _ => none
  { address := address, renderQueueEndpoint := jsStr address ++ ":" ++ port }

/-! ## Certificate configuration (`configureCert`) -/

/-- The render-queue certificate handle: the ARN of its cert secret. -/
structure CertRef where
  secretArn : String

/-- Stack-level state `configureCert` can touch: the CloudFormation outputs
created so far and the secret ARNs the bastion was granted read access to. -/
structure StackState where
  outputs : List (String × String)
  grants : List String

/-- `configureCert`: when a certificate is passed, grant the bastion read
access to its secret and create the `certSecretARN<suiteId>` output; when the
argument is absent, do nothing. -/
def configureCert (testSuiteId : String) (cert : Option CertRef) (st : StackState) :
    StackState :=
  match cert with
  | some c =>
    { outputs := st.outputs ++ [("certSecretARN" ++ testSuiteId, c.secretArn)],
      grants := st.grants ++ [c.secretArn] }
  | none => st

/-! ## Classification of the recognized key shapes -/

theorem bastionKey_hasSub : hasSub bastionLit "bastionId".toList = true := by decide

theorem rqKey_not_bastion : ∀ i, i < 10 → hasSub bastionLit (rqKey i).toList = false := by
  decide

theorem rqKey_scan_rq : ∀ i, i < 10 →
    scanLitDigit rqLit (rqKey i).toList = some (Nat.digitChar i) := by decide

theorem certKey_not_bastion : ∀ i, i < 10 → hasSub bastionLit (certKey i).toList = false := by
  decide

theorem certKey_scan_rq : ∀ i, i < 10 → scanLitDigit rqLit (certKey i).toList = none := by
  decide

theorem certKey_scan_cert : ∀ i, i < 10 →
    scanLitDigit certLit (certKey i).toList = some (Nat.digitChar i) := by decide

theorem digitVal_digitChar : ∀ i, i < 10 → digitVal (Nat.digitChar i) = i := by decide

theorem rqKey_inj : ∀ i, i < 10 → ∀ j, j < 10 → rqKey i = rqKey j → i = j := by decide

theorem certKey_inj : ∀ i, i < 10 → ∀ j, j < 10 → certKey i = certKey j → i = j := by decide

/-! ## One classification step -/

theorem processOutput_bastionKey (st : Discovery) (kv : String × String)
    (hk : hasSub bastionLit kv.1.toList = true) :
    processOutput st kv = { st with bastionId := some kv.2 } := by
  have hk' : hasSub bastionLit kv.1.data = true := hk
  simp [processOutput, hk']

theorem processOutput_rqKey (st : Discovery) (kv : String × String) (j : Nat)
    (h1 : hasSub bastionLit kv.1.toList = false)
    (h2 : scanLitDigit rqLit kv.1.toList = some (Nat.digitChar j))
    (h3 : digitVal (Nat.digitChar j) = j) :
    processOutput st kv =
      { st with renderQueueEndpoints :=
          fun i => if i = j then some kv.2 else st.renderQueueEndpoints i } := by
  have h1' : hasSub bastionLit kv.1.data = false := h1
  have h2' : scanLitDigit rqLit kv.1.data = some (Nat.digitChar j) := h2
  simp [processOutput, h1', h2', h3]

theorem processOutput_certKey (st : Discovery) (kv : String × String) (j : Nat)
    (h1 : hasSub bastionLit kv.1.toList = false)
    (h2 : scanLitDigit rqLit kv.1.toList = none)
    (h3 : scanLitDigit certLit kv.1.toList = some (Nat.digitChar j))
    (h4 : digitVal (Nat.digitChar j) = j) :
    processOutput st kv =
      { st with secretARNs :=
          fun i => if i = j then some kv.2 else st.secretARNs i } := by
  have h1' : hasSub bastionLit kv.1.data = false := h1
  have h2' : scanLitDigit rqLit kv.1.data = none := h2
  have h3' : scanLitDigit certLit kv.1.data = some (Nat.digitChar j) := h3
  simp [processOutput, h1', h2', h3', h4]

theorem processOutput_endpoints_skip (st : Discovery) (kv : String × String) (i : Nat)
    (hi : i < 10) (hg : GoodKey kv.1) (hne : kv.1 ≠ rqKey i) :
    (processOutput st kv).renderQueueEndpoints i = st.renderQueueEndpoints i := by
  rcases hg with hb | ⟨j, hj, hr | hc⟩
  · rw [processOutput_bastionKey st kv (by rw [hb]; exact bastionKey_hasSub)]
  · have hji : ¬ i = j := fun e => hne (by rw [hr, e])
    rw [processOutput_rqKey st kv j (by rw [hr]; exact rqKey_not_bastion j hj)
          (by rw [hr]; exact rqKey_scan_rq j hj) (digitVal_digitChar j hj)]
    exact if_neg hji
  · rw [processOutput_certKey st kv j (by rw [hc]; exact certKey_not_bastion j hj)
          (by rw [hc]; exact certKey_scan_rq j hj)
          (by rw [hc]; exact certKey_scan_cert j hj) (digitVal_digitChar j hj)]

theorem processOutput_secrets_skip (st : Discovery) (kv : String × String) (i : Nat)
    (hi : i < 10) (hg : GoodKey kv.1) (hne : kv.1 ≠ certKey i) :
    (processOutput st kv).secretARNs i = st.secretARNs i := by
  rcases hg with hb | ⟨j, hj, hr | hc⟩
  · rw [processOutput_bastionKey st kv (by rw [hb]; exact bastionKey_hasSub)]
  · rw [processOutput_rqKey st kv j (by rw [hr]; exact rqKey_not_bastion j hj)
          (by rw [hr]; exact rqKey_scan_rq j hj) (digitVal_digitChar j hj)]
  · have hji : ¬ i = j := fun e => hne (by rw [hc, e])
    rw [processOutput_certKey st kv j (by rw [hc]; exact certKey_not_bastion j hj)
          (by rw [hc]; exact certKey_scan_rq j hj)
          (by rw [hc]; exact certKey_scan_cert j hj) (digitVal_digitChar j hj)]
    exact if_neg hji

theorem processOutput_bastion_skip (st : Discovery) (kv : String × String)
    (hg : GoodKey kv.1) (hne : kv.1 ≠ "bastionId") :
    (processOutput st kv).bastionId = st.bastionId := by
  rcases hg with hb | ⟨j, hj, hr | hc⟩
  · exact absurd hb hne
  · rw [processOutput_rqKey st kv j (by rw [hr]; exact rqKey_not_bastion j hj)
          (by rw [hr]; exact rqKey_scan_rq j hj) (digitVal_digitChar j hj)]
  · rw [processOutput_certKey st kv j (by rw [hc]; exact certKey_not_bastion j hj)
          (by rw [hc]; exact certKey_scan_rq j hj)
          (by rw [hc]; exact certKey_scan_cert j hj) (digitVal_digitChar j hj)]

/-! ## Whole-pass lemmas -/

theorem foldl_endpoints_frame (i : Nat) (hi : i < 10) :
    ∀ (l : List (String × String)) (st : Discovery),
      (∀ kv, kv ∈ l → GoodKey kv.1 ∧ kv.1 ≠ rqKey i) →
      (l.foldl processOutput st).renderQueueEndpoints i = st.renderQueueEndpoints i := by
  intro l
  induction l with
  | nil => intro st _; rfl
  | cons kv rest ih =>
    intro st h
    have hkv := h kv (List.mem_cons_self kv rest)
    rw [List.foldl_cons, ih (processOutput st kv) (fun kv' hm => h kv' (List.mem_cons_of_mem kv hm)),
        processOutput_endpoints_skip st kv i hi hkv.1 hkv.2]

theorem foldl_secrets_frame (i : Nat) (hi : i < 10) :
    ∀ (l : List (String × String)) (st : Discovery),
      (∀ kv, kv ∈ l → GoodKey kv.1 ∧ kv.1 ≠ certKey i) →
      (l.foldl processOutput st).secretARNs i = st.secretARNs i := by
  intro l
  induction l with
  | nil => intro st _; rfl
  | cons kv rest ih =>
    intro st h
    have hkv := h kv (List.mem_cons_self kv rest)
    rw [List.foldl_cons, ih (processOutput st kv) (fun kv' hm => h kv' (List.mem_cons_of_mem kv hm)),
        processOutput_secrets_skip st kv i hi hkv.1 hkv.2]

theorem foldl_bastion_frame :
    ∀ (l : List (String × String)) (st : Discovery),
      (∀ kv, kv ∈ l → GoodKey kv.1 ∧ kv.1 ≠ "bastionId") →
      (l.foldl processOutput st).bastionId = st.bastionId := by
  intro l
  induction l with
  | nil => intro st _; rfl
  | cons kv rest ih =>
    intro st h
    have hkv := h kv (List.mem_cons_self kv rest)
    rw [List.foldl_cons, ih (processOutput st kv) (fun kv' hm => h kv' (List.mem_cons_of_mem kv hm)),
        processOutput_bastion_skip st kv hkv.1 hkv.2]

theorem notin_of_nodup_cons (kv : String × String) (rest : List (String × String))
    (hnd : ((kv :: rest).map Prod.fst).Nodup) :
    ∀ kv', kv' ∈ rest → kv'.1 ≠ kv.1 := by
  intro kv' hm e
  rw [List.map_cons, List.nodup_cons] at hnd
  exact hnd.1 (e ▸ List.mem_map_of_mem Prod.fst hm)

theorem foldl_endpoints_lookup (i : Nat) (hi : i < 10) :
    ∀ (l : List (String × String)) (st : Discovery),
      (∀ kv, kv ∈ l → GoodKey kv.1) → (l.map Prod.fst).Nodup →
      (l.foldl processOutput st).renderQueueEndpoints i =
        (lookupKey (rqKey i) l).elim (st.renderQueueEndpoints i) some := by
  intro l
  induction l with
  | nil => intro st _ _; rfl
  | cons kv rest ih =>
    intro st hg hnd
    have hg' : ∀ kv', kv' ∈ rest → GoodKey kv'.1 :=
      fun kv' hm => hg kv' (List.mem_cons_of_mem kv hm)
    have hnd' : (rest.map Prod.fst).Nodup := by
      rw [List.map_cons, List.nodup_cons] at hnd
      exact hnd.2
    rw [List.foldl_cons]
    by_cases hk : kv.1 = rqKey i
    · have hmem : ∀ kv', kv' ∈ rest → GoodKey kv'.1 ∧ kv'.1 ≠ rqKey i := by
        intro kv' hm
        exact ⟨hg' kv' hm, fun e => notin_of_nodup_cons kv rest hnd kv' hm (e.trans hk.symm)⟩
      rw [foldl_endpoints_frame i hi rest (processOutput st kv) hmem,
          processOutput_rqKey st kv i (by rw [hk]; exact rqKey_not_bastion i hi)
            (by rw [hk]; exact rqKey_scan_rq i hi) (digitVal_digitChar i hi)]
      simp [lookupKey, hk]
    · rw [ih (processOutput st kv) hg' hnd',
          processOutput_endpoints_skip st kv i hi (hg kv (List.mem_cons_self kv rest)) hk]
      simp [lookupKey, hk]

theorem foldl_secrets_lookup (i : Nat) (hi : i < 10) :
    ∀ (l : List (String × String)) (st : Discovery),
      (∀ kv, kv ∈ l → GoodKey kv.1) → (l.map Prod.fst).Nodup →
      (l.foldl processOutput st).secretARNs i =
        (lookupKey (certKey i) l).elim (st.secretARNs i) some := by
  intro l
  induction l with
  | nil => intro st _ _; rfl
  | cons kv rest ih =>
    intro st hg hnd
    have hg' : ∀ kv', kv' ∈ rest → GoodKey kv'.1 :=
      fun kv' hm => hg kv' (List.mem_cons_of_mem kv hm)
    have hnd' : (rest.map Prod.fst).Nodup := by
      rw [List.map_cons, List.nodup_cons] at hnd
      exact hnd.2
    rw [List.foldl_cons]
    by_cases hk : kv.1 = certKey i
    · have hmem : ∀ kv', kv' ∈ rest → GoodKey kv'.1 ∧ kv'.1 ≠ certKey i := by
        intro kv' hm
        exact ⟨hg' kv' hm, fun e => notin_of_nodup_cons kv rest hnd kv' hm (e.trans hk.symm)⟩
      rw [foldl_secrets_frame i hi rest (processOutput st kv) hmem,
          processOutput_certKey st kv i (by rw [hk]; exact certKey_not_bastion i hi)
            (by rw [hk]; exact certKey_scan_rq i hi)
            (by rw [hk]; exact certKey_scan_cert i hi) (digitVal_digitChar i hi)]
      simp [lookupKey, hk]
    · rw [ih (processOutput st kv) hg' hnd',
          processOutput_secrets_skip st kv i hi (hg kv (List.mem_cons_self kv rest)) hk]
      simp [lookupKey, hk]

theorem foldl_bastion_lookup :
    ∀ (l : List (String × String)) (st : Discovery),
      (∀ kv, kv ∈ l → GoodKey kv.1) → (l.map Prod.fst).Nodup →
      (l.foldl processOutput st).bastionId =
        (lookupKey "bastionId" l).elim st.bastionId some := by
  intro l
  induction l with
  | nil => intro st _ _; rfl
  | cons kv rest ih =>
    intro st hg hnd
    have hg' : ∀ kv', kv' ∈ rest → GoodKey kv'.1 :=
      fun kv' hm => hg kv' (List.mem_cons_of_mem kv hm)
    have hnd' : (rest.map Prod.fst).Nodup := by
      rw [List.map_cons, List.nodup_cons] at hnd
      exact hnd.2
    rw [List.foldl_cons]
    by_cases hk : kv.1 = "bastionId"
    · have hmem : ∀ kv', kv' ∈ rest → GoodKey kv'.1 ∧ kv'.1 ≠ "bastionId" := by
        intro kv' hm
        exact ⟨hg' kv' hm, fun e => notin_of_nodup_cons kv rest hnd kv' hm (e.trans hk.symm)⟩
      rw [foldl_bastion_frame rest (processOutput st kv) hmem,
          processOutput_bastionKey st kv (by rw [hk]; exact bastionKey_hasSub)]
      simp [lookupKey, hk]
    · rw [ih (processOutput st kv) hg' hnd',
          processOutput_bastion_skip st kv (hg kv (List.mem_cons_self kv rest)) hk]
      simp [lookupKey, hk]

/-! ## Claims -/

/-- C1: for the end-to-end outputs `{bastionId: "i-1", renderQueueEndpointWFS1:
"rq1.local:4433", CertSecretARNWFS1: "arn:secret:1"}` the Suite Driver for
suite 1 dispatches, in order: the fetch-cert setup referencing the discovered
secret ARN, the configure-deadline setup referencing the resolved endpoint,
the (one or more) assertion dispatches, and finally the cleanup-cert teardown;
and when a setup command run ends `Failed` — whether the fetch-cert or the
configure-deadline run — no assertion dispatch is ever issued, while the
teardown dispatch still is. -/
theorem suite_driver_dispatch_order (tag region : String) (r : CommandState) :
    (suiteDispatches (discover e2eOutputs) tag region 1 CommandState.Success CommandState.Success =
       [fetchCertDispatch "i-1" region "arn:secret:1",
        configureDeadlineDispatch "i-1" "rq1.local:4433"]
       ++ (wfsAssertionSpecs 1).map (assertionDispatch "i-1")
       ++ [cleanupCertDispatch "i-1"])
    ∧ fetchCertCommand region "arn:secret:1" ∈
        (fetchCertDispatch "i-1" region "arn:secret:1").commands
    ∧ "./utilScripts/configure-deadline.sh 'rq1.local:4433'" ∈
        (configureDeadlineDispatch "i-1" "rq1.local:4433").commands
    ∧ 1 ≤ ((wfsAssertionSpecs 1).map (assertionDispatch "i-1")).length
    ∧ (suiteDispatches (discover e2eOutputs) tag region 1 CommandState.Failed r =
        [fetchCertDispatch "i-1" region "arn:secret:1", cleanupCertDispatch "i-1"])
    ∧ (suiteDispatches (discover e2eOutputs) tag region 1 CommandState.Success CommandState.Failed =
        [fetchCertDispatch "i-1" region "arn:secret:1",
         configureDeadlineDispatch "i-1" "rq1.local:4433",
         cleanupCertDispatch "i-1"]) := by
  refine ⟨rfl, ?_, ?_, by decide, rfl, rfl⟩
  · simp [fetchCertDispatch, sudoPreamble]
  · simp [configureDeadlineDispatch, sudoPreamble]

/-- C2: with `installDeadlineClient := false` and `fetchDocdbCert := true`,
the assembled boot command sequence contains no client-installer download
command, contains the CA-bundle `wget` exactly once, and that `wget` sits
after the test-script unpack command and before the final ownership fix-up
(`chown`). -/
theorem boot_no_client_single_bundle :
    ((s3DownloadCommands clientInstallerKey).all
        (fun c => !((bastionBootCommands false true).contains c)) = true)
    ∧ (bastionBootCommands false true).count docdbCaBundleDownloadCommand = 1
    ∧ (bastionBootCommands false true).indexOf ("unzip " ++ localPath testingScriptsKey)
        < (bastionBootCommands false true).indexOf docdbCaBundleDownloadCommand
    ∧ (bastionBootCommands false true).indexOf docdbCaBundleDownloadCommand
        < (bastionBootCommands false true).indexOf "chown ec2-user.ec2-user -R *" := by
  decide

/-- C3: with `installDeadlineClient := true` (for either value of
`fetchDocdbCert`), the installer run `./install_deadline_client.sh` precedes
the removal of the downloaded installer, and the whole pushed client-install
block (cp, chmod, run, rm) sits after the generic setup block
(unzip setup package, chmod, `./install_jq.sh`), which is itself in order. -/
theorem boot_client_install_order (f : Bool) :
    ((bastionBootCommands true f).indexOf ("unzip " ++ localPath setupScriptsKey)
        < (bastionBootCommands true f).indexOf "./install_jq.sh")
    ∧ ((bastionBootCommands true f).indexOf "./install_jq.sh"
        < (bastionBootCommands true f).indexOf
            ("cp " ++ localPath clientInstallerKey ++ " ./deadline-client-installer.run"))
    ∧ ((bastionBootCommands true f).indexOf
          ("cp " ++ localPath clientInstallerKey ++ " ./deadline-client-installer.run")
        < (bastionBootCommands true f).indexOf "chmod +x *.run")
    ∧ ((bastionBootCommands true f).indexOf "chmod +x *.run"
        < (bastionBootCommands true f).indexOf "./install_deadline_client.sh")
    ∧ ((bastionBootCommands true f).indexOf "./install_deadline_client.sh"
        < (bastionBootCommands true f).indexOf ("rm -f " ++ localPath clientInstallerKey)) := by
  cases f <;> decide

/-- C4 counterexample: the raw mapping `{bastionId: "i-1",
renderQueueEndpointWFS12: "ep12"}` has a well-formed suite-indexed key of
shape `<prefix><SuiteCode><Digits>` whose digit suffix parses to 12, yet
discovery does not store the value at position 12: the single-digit capture
group stores it at position 1. -/
theorem discover_multi_digit_counterexample :
    ¬ ((discover multiDigitOutputs).renderQueueEndpoints 12 = some "ep12")
    ∧ (discover multiDigitOutputs).renderQueueEndpoints 1 = some "ep12" := by
  decide

/-- C4 (amended to single-digit suite indices): for every raw output mapping
with unique keys, each of which is the bare `bastionId` key or a well-formed
suite-indexed key with a single-digit index, discovery resolves, per index
`i < 10`, exactly the fields whose keys existed in the mapping — the endpoint
slot at `i` holds precisely the value of the endpoint key of index `i` (and
`none` when that key was never produced), likewise for the secret slot, and
the host identifier holds precisely the bare key's value. -/
theorem discover_per_index_resolution (outputs : List (String × String))
    (hg : ∀ kv, kv ∈ outputs → GoodKey kv.1)
    (hnd : (outputs.map Prod.fst).Nodup) (i : Nat) (hi : i < 10) :
    (discover outputs).bastionId = lookupKey "bastionId" outputs
    ∧ (discover outputs).renderQueueEndpoints i = lookupKey (rqKey i) outputs
    ∧ (discover outputs).secretARNs i = lookupKey (certKey i) outputs := by
  refine ⟨?_, ?_, ?_⟩
  · rw [discover, foldl_bastion_lookup outputs emptyDiscovery hg hnd]
    cases lookupKey "bastionId" outputs <;> rfl
  · rw [discover, foldl_endpoints_lookup i hi outputs emptyDiscovery hg hnd]
    cases lookupKey (rqKey i) outputs <;> rfl
  · rw [discover, foldl_secrets_lookup i hi outputs emptyDiscovery hg hnd]
    cases lookupKey (certKey i) outputs <;> rfl

/-- C4 witness: the resolution theorem applied to the end-to-end mapping at
suite index 1. -/
theorem discover_per_index_resolution_witness :
    (discover e2eOutputs).bastionId = lookupKey "bastionId" e2eOutputs
    ∧ (discover e2eOutputs).renderQueueEndpoints 1 = lookupKey (rqKey 1) e2eOutputs
    ∧ (discover e2eOutputs).secretARNs 1 = lookupKey (certKey 1) e2eOutputs :=
  discover_per_index_resolution e2eOutputs (by decide) (by decide) 1 (by decide)

/-- C5: `configureRenderQueue` resolves the address to the endpoint hostname
for port `8080`, to `renderqueue.` + the stack name + `.local` for port
`4433`, and assigns no address at all — silently, with no error — for every
other port value. -/
theorem configureRenderQueue_address_cases (stackName hostname port : String) :
    (configureRenderQueue stackName hostname "8080").address = some hostname
    ∧ (configureRenderQueue stackName hostname "4433").address =
        some ("renderqueue." ++ (stackName ++ ".local"))
    ∧ (port ≠ "8080" → port ≠ "4433" →
        (configureRenderQueue stackName hostname port).address = none) := by
  refine ⟨rfl, rfl, ?_⟩
  intro h1 h2
  unfold configureRenderQueue
  split <;> simp_all

/-- C5 witness: the unrecognized-port case evaluated at port 9999. -/
theorem configureRenderQueue_address_cases_witness :
    (configureRenderQueue "RFDKIntegWF1" "rq.host" "9999").address = none :=
  (configureRenderQueue_address_cases "RFDKIntegWF1" "rq.host" "9999").2.2
    (by decide) (by decide)

/-- C6: whenever no secret reference was discovered for index `i`, the suite
setup fails with the missing-output error (and so dispatches no fetch-cert
command: no dispatch of the suite run carries the fetch-cert comment). -/
theorem fetchCertStep_missing_secret (st : Discovery) (tag region : String) (id : Nat)
    (h : st.secretARNs id = none) (r1 r2 : CommandState) :
    fetchCertStep st tag region id =
      Except.error ("Did not find a secrect ARN for " ++ testingStackName tag)
    ∧ ∀ d, d ∈ suiteDispatches st tag region id r1 r2 →
        d.comment ≠ "Execute Test Script fetch-cert.sh" := by
  have he : fetchCertStep st tag region id =
      Except.error ("Did not find a secrect ARN for " ++ testingStackName tag) := by
    rw [fetchCertStep, h]
    rfl
  refine ⟨he, ?_⟩
  intro d hd
  have hd' : d = cleanupCertDispatch (jsStr st.bastionId) := by
    simpa [suiteDispatches, he] using hd
  rw [hd']
  simp [cleanupCertDispatch]

/-- C6 witness: the theorem applied to the empty discovery state at suite 1. -/
theorem fetchCertStep_missing_secret_witness :
    fetchCertStep (discover []) "tag1" "us-west-2" 1 =
      Except.error ("Did not find a secrect ARN for " ++ testingStackName "tag1")
    ∧ ∀ d, d ∈ suiteDispatches (discover []) "tag1" "us-west-2" 1
          CommandState.Success CommandState.Success →
        d.comment ≠ "Execute Test Script fetch-cert.sh" :=
  fetchCertStep_missing_secret (discover []) "tag1" "us-west-2" 1 rfl
    CommandState.Success CommandState.Success

/-- C7: for every boot configuration, the assembled command sequence ends, in
order, with the recursive ownership fix-up of the unprivileged user's home,
the scratch-directory cleanup, and the completion signal as the very last
appended command; and the provisioning wait is configured for exactly one
signal within a 5-minute timeout. -/
theorem boot_final_sequence_and_signal_policy (props : UserDataConfigProps) :
    (["chown ec2-user.ec2-user -R *", "rm -rf \"${TMPDIR}\"",
        signalOnExitCommand].isSuffixOf (configureBastionUserData props).commands = true)
    ∧ (configureBastionUserData props).resourceSignal.count = 1
    ∧ (configureBastionUserData props).resourceSignal.timeout = durationMinutesISO 5 := by
  obtain ⟨b1, b2, tsp⟩ := props
  refine ⟨?_, rfl, rfl⟩
  show (["chown ec2-user.ec2-user -R *", "rm -rf \"${TMPDIR}\"",
      signalOnExitCommand].isSuffixOf (bastionBootCommands b1 b2)) = true
  cases b1 <;> cases b2 <;> decide

/-- C8: a raw key matched by none of the three recognized patterns is
ignored: processing it leaves the discovered host identifier, endpoint table
and secret-reference table — the whole discovery state — unchanged. -/
theorem processOutput_unrecognized_noop (st : Discovery) (kv : String × String)
    (h1 : hasSub bastionLit kv.1.toList = false)
    (h2 : scanLitDigit rqLit kv.1.toList = none)
    (h3 : scanLitDigit certLit kv.1.toList = none) :
    processOutput st kv = st := by
  have h1' : hasSub bastionLit kv.1.data = false := h1
  have h2' : scanLitDigit rqLit kv.1.data = none := h2
  have h3' : scanLitDigit certLit kv.1.data = none := h3
  simp [processOutput, h1', h2', h3']

/-- C8 witness: the unrecognized key `logGroupNameDL1` is a no-op on the
empty discovery state. -/
theorem processOutput_unrecognized_noop_witness :
    processOutput emptyDiscovery ("logGroupNameDL1", "lg") = emptyDiscovery :=
  processOutput_unrecognized_noop emptyDiscovery ("logGroupNameDL1", "lg")
    (by decide) (by decide) (by decide)

/-- C9: within one suite's `Running` phase each assertion is its own
independent command run: the dispatch trace is the full per-assertion
dispatch list whatever the returned outputs (so a failed match on one
assertion never prevents a later assertion from being dispatched), every
assertion's result is computed from its own output alone and carries the
shared suite index, and the assertion scripts — including the two
parameterized `test.each` rows — all use distinct command arguments. -/
theorem running_phase_assertions_independent (bastion : String) (id : Nat)
    (outs : Nat → String) :
    (runningPhase bastion id outs).1 = (wfsAssertionSpecs id).map (assertionDispatch bastion)
    ∧ (runningPhase bastion id outs).2 =
        ((wfsAssertionSpecs id).enum).map
          (fun ka => { suiteIndex := id
                       testId := ka.2.testId
                       matched := evalMatcher ka.2.matcher (outs ka.1)
                       rawOutput := outs ka.1 })
    ∧ ((wfsAssertionSpecs id).map (fun a => a.script)).Nodup := by
  refine ⟨rfl, rfl, ?_⟩
  have h : (wfsAssertionSpecs id).map (fun a => a.script) =
      ["./testScripts/WFS-report-workers.sh",
       "./testScripts/WFS-report-worker-sets.sh",
       "./testScripts/WFS-submit-jobs-to-sets.sh \"group\" \"-group testgroup\"",
       "./testScripts/WFS-submit-jobs-to-sets.sh \"pool\" \"-pool testpool\""] := rfl
  rw [h]
  decide

/-- C10: configuring a suite whose certificate argument is absent is a
no-op: it grants no read permission, creates no `certSecretARN` output, and
leaves the stack state unchanged — in particular, if the suite's
`certSecretARN` key was not among the outputs before, it is not afterwards. -/
theorem configureCert_absent_noop (testSuiteId : String) (st : StackState) :
    configureCert testSuiteId none st = st
    ∧ ∀ k : String, k ∉ st.outputs.map Prod.fst →
        k ∉ (configureCert testSuiteId none st).outputs.map Prod.fst :=
  ⟨rfl, fun _ hk => hk⟩

/-- C10 witness: the no-op evaluated on the empty stack state for suite WF1. -/
theorem configureCert_absent_noop_witness :
    configureCert "WF1" none ⟨[], []⟩ = ⟨[], []⟩
    ∧ "certSecretARNWF1" ∉ (configureCert "WF1" none
        (⟨[], []⟩ : StackState)).outputs.map Prod.fst :=
  ⟨(configureCert_absent_noop "WF1" ⟨[], []⟩).1,
   (configureCert_absent_noop "WF1" ⟨[], []⟩).2 "certSecretARNWF1" (by decide)⟩

end RfdkInteg
